import Mathlib

/-!
Verification development for `bleak_retry_connector` (version 1.12.3,
`src/bleak_retry_connector/__init__.py`).

The Python module is shallowly embedded below:
* module-level constants keep their source names;
* `get_bluez_device` (the device resolver) becomes a pure fold over the
  nine possible adapter paths, with the BlueZ property snapshot passed in
  as an association list and the try/except wrapper modelled by
  `getBluezDeviceSafe` over `Except`;
* `establish_connection` (the retry orchestrator) becomes a step function
  `establishStep` on an explicit `EstState` (the loop-local counters,
  device, and client), driven by a list of injected per-attempt
  environments (`AttemptEnv`: the optional `ble_device_callback` result,
  the optional `freshen_ble_device` result, and the connect outcome);
* `BleakClientWithServiceCache.get_services` becomes a pure function on a
  client record plus the outcome of the superclass call.
-/

namespace BleakRetryConnector

/-- `UNREACHABLE_RSSI = -1000` from the source. -/
def UNREACHABLE_RSSI : Int := -1000

/-- `RSSI_SWITCH_THRESHOLD = 6` from the source. -/
def RSSI_SWITCH_THRESHOLD : Int := 6

/-- `MAX_TRANSIENT_ERRORS = 9` from the source. -/
def MAX_TRANSIENT_ERRORS : Nat := 9

/-- `MAX_CONNECT_ATTEMPTS = 4` from the source. -/
def MAX_CONNECT_ATTEMPTS : Nat := 4

/-- `BLEAK_DBUS_BACKOFF_TIME = 0.25` (seconds) from the source. -/
def BLEAK_DBUS_BACKOFF_TIME : ℚ := 1/4

/-- Whether the first character list is a prefix of the second. -/
def listIsPrefixB : List Char → List Char → Bool
  | [], _ => true
  | _ :: _, [] => false
  | a :: as, b :: bs => a == b && listIsPrefixB as bs

/-- Whether the first character list occurs inside the second. -/
def listContainsB (needle : List Char) : List Char → Bool
  | [] => listIsPrefixB needle []
  | h :: t => listIsPrefixB needle (h :: t) || listContainsB needle t

/-- Python's `needle in haystack` substring test. -/
def strContains (haystack needle : String) : Bool :=
  listContainsB needle.data haystack.data

/-- `TRANSIENT_ERRORS` from the source. -/
def TRANSIENT_ERRORS : List String :=
  ["le-connection-abort-by-local", "br-connection-canceled"]

/-- `DEVICE_MISSING_ERRORS` from the source. -/
def DEVICE_MISSING_ERRORS : List String :=
  ["org.freedesktop.DBus.Error.UnknownObject"]

/-- `ABORT_ERRORS = TRANSIENT_ERRORS` from the source. -/
def ABORT_ERRORS : List String := TRANSIENT_ERRORS

/-- The `DEVICE_INTERFACE` property record of one BlueZ object path
(`properties[path][defs.DEVICE_INTERFACE]`).  `rssi` is `Option` because
`.get("RSSI")` may return `None`. -/
structure DevProps where
  address : String
  aliasName : String
  rssi : Option Int
  connected : Bool := false
  uuids : List String := []
  manufacturerData : List (Nat × List Nat) := []
deriving DecidableEq

/-- The BlueZ manager's `_properties` snapshot: path → interface map.
`some none` models a path present without the device interface;
`some (some d)` a path with a `DEVICE_INTERFACE` record `d`. -/
abbrev Snapshot := List (String × Option DevProps)

/-- The source's read pattern
`path in properties and DEVICE_INTERFACE in properties[path]`,
returning the device record if both hold. -/
def deviceRecord (props : Snapshot) (pth : String) : Option DevProps :=
  match props.lookup pth with
  | some (some d) => some d
  | _ => none

/-- A `BLEDevice` as used by the module: address, name (alias), the
`details` dict reduced to its `"path"` entry (`none` when `details` is
not a dict carrying a path), and the rssi. -/
structure BLEDevice where
  address : String
  name : String
  details : Option String
  rssi : Int
  uuids : List String := []
  manufacturerData : List (Nat × List Nat) := []
deriving DecidableEq

/-- `ble_device_has_changed` from the source. -/
def bleDeviceHasChanged (original new : BLEDevice) : Bool :=
  if original.address != new.address then true
  else
    match original.details, new.details with
    | some p, some q => p != q
    | _, _ => false

/-- `_get_possible_paths`: substitute the adapter index (the character at
offset 14 of `/org/bluez/hciN/dev_...`) by each of 0..8. -/
def getPossiblePaths (pth : String) : List String :=
  (List.range 9).map (fun i => pth.take 14 ++ toString i ++ pth.drop 15)

/-- Python's `rssi or UNREACHABLE_RSSI`: `None` and `0` are falsy. -/
def rssiOrUnreachable : Option Int → Int
  | none => UNREACHABLE_RSSI
  | some r => if r = 0 then UNREACHABLE_RSSI else r

/-- One iteration of the candidate loop of `get_bluez_device`: state is
`(best_path, rssi_to_beat)`; `deviceRssi` is the loop-invariant
`device_rssi`.  Mirrors

    if path == device_path or path not in properties or DEVICE_INTERFACE not in properties[path]: continue
    rssi = properties[path][DEVICE_INTERFACE].get("RSSI")
    if rssi_to_beat != UNREACHABLE_RSSI and (not rssi or rssi - RSSI_SWITCH_THRESHOLD < device_rssi or rssi < rssi_to_beat): continue
    best_path = path; rssi_to_beat = rssi or UNREACHABLE_RSSI
-/
def candidateStep (props : Snapshot) (devicePath : String) (deviceRssi : Int)
    (st : String × Int) (pth : String) : String × Int :=
  if pth = devicePath then st
  else
    match deviceRecord props pth with
    | none => st
    | some d =>
      let skip : Bool :=
        decide (st.2 ≠ UNREACHABLE_RSSI) &&
          (match d.rssi with
           | none => true
           | some r =>
             decide (r = 0) || decide (r - RSSI_SWITCH_THRESHOLD < deviceRssi)
               || decide (r < st.2))
      if skip then st else (pth, rssiOrUnreachable d.rssi)

/-- The `device_rssi` value of `get_bluez_device`: `rssi or
UNREACHABLE_RSSI`, forced to the sentinel when the original path has no
device record in the snapshot (the device has disappeared). -/
def bluezDeviceRssi (props : Snapshot) (devicePath : String) (rssi : Option Int) :
    Int :=
  if (deviceRecord props devicePath).isSome then rssiOrUnreachable rssi
  else UNREACHABLE_RSSI

/-- The `(best_path, rssi_to_beat)` pair after the candidate loop of
`get_bluez_device`. -/
def bluezBest (props : Snapshot) (devicePath : String) (rssi : Option Int) :
    String × Int :=
  (getPossiblePaths devicePath).foldl
    (candidateStep props devicePath (bluezDeviceRssi props devicePath rssi))
    (devicePath, bluezDeviceRssi props devicePath rssi)

/-- The pure body of `get_bluez_device` (the part inside the `try`),
given the property snapshot.  The trailing `none` branch of the final
match models the `KeyError` → `except` → `return None` path. -/
def getBluezDevice (props : Snapshot) (devicePath : String) (rssi : Option Int) :
    Option BLEDevice :=
  if (bluezBest props devicePath rssi).1 = devicePath then none
  else
    match deviceRecord props (bluezBest props devicePath rssi).1 with
    | some d =>
        some { address := d.address, name := d.aliasName,
               details := some (bluezBest props devicePath rssi).1,
               rssi := (bluezBest props devicePath rssi).2, uuids := d.uuids,
               manufacturerData := d.manufacturerData }
    | none => none

/-- `get_bluez_device` with its try/except wrapper: reading the bluez
manager's snapshot may fail, and every such failure is swallowed,
returning `None`. -/
def getBluezDeviceSafe (props : Except String Snapshot) (devicePath : String)
    (rssi : Option Int) : Option BLEDevice :=
  match props with
  | .error _ => none
  | .ok ps => getBluezDevice ps devicePath rssi

/-- The exceptions caught by `establish_connection`, as a closed type.
`bleakDBus` models `BleakDBusError` (a subclass of `BleakError`);
`bleakError` a plain `BleakError`; together with `attributeError` they are
the `BLEAK_EXCEPTIONS = (AttributeError, BleakError)` family.  `msg` is
Python's `str(exc)` (empty for `asyncio.TimeoutError`). -/
inductive Exc where
  | timeoutError
  | brokenPipe (msg : String)
  | eofError (msg : String)
  | bleakDBus (msg : String)
  | bleakError (msg : String)
  | attributeError (msg : String)
deriving DecidableEq

/-- `str(exc)`. -/
def Exc.msg : Exc → String
  | .timeoutError => ""
  | .brokenPipe m => m
  | .eofError m => m
  | .bleakDBus m => m
  | .bleakError m => m
  | .attributeError m => m

/-- `isinstance(exc, asyncio.TimeoutError)`. -/
def Exc.isTimeout : Exc → Bool
  | .timeoutError => true
  | _ => false

/-- `isinstance(exc, BleakError)`. -/
def Exc.isBleakError : Exc → Bool
  | .bleakDBus _ => true
  | .bleakError _ => true
  | _ => false

/-- `isinstance(exc, BleakDBusError)`. -/
def Exc.isBleakDBus : Exc → Bool
  | .bleakDBus _ => true
  | _ => false

/-- The three terminal exception kinds raised by `_raise_if_needed`:
`BleakNotFoundError`, `BleakAbortedError`, `BleakConnectionError`. -/
inductive TerminalKind where
  | notFound
  | aborted
  | connectionFailed
deriving DecidableEq

/-- The message-classification half of `_raise_if_needed` (which terminal
exception type is raised once the budget is exhausted). -/
def raiseKind (exc : Exc) : TerminalKind :=
  if exc.isTimeout || strContains exc.msg "not found" then .notFound
  else if exc.isBleakError && ABORT_ERRORS.any (strContains exc.msg) then .aborted
  else if exc.isBleakError && DEVICE_MISSING_ERRORS.any (strContains exc.msg) then
    .notFound
  else .connectionFailed

/-- `_raise_if_needed`: `none` means return (keep retrying), `some k`
means raise the terminal exception of kind `k`. -/
def raiseIfNeeded (timeouts connectErrors transientErrors maxAttempts : Nat)
    (exc : Exc) : Option TerminalKind :=
  if timeouts + connectErrors < maxAttempts ∧
      transientErrors < MAX_TRANSIENT_ERRORS then none
  else some (raiseKind exc)

/-- `any(error in bleak_error for error in TRANSIENT_ERRORS)`. -/
def hasTransientError (msg : String) : Bool :=
  TRANSIENT_ERRORS.any (strContains msg)

/-- The counter updates of the `except` clauses of `establish_connection`:
given `(timeouts, connect_errors, transient_errors)` and the caught
exception, the updated triple. -/
def newCounters (t c tr : Nat) (e : Exc) : Nat × Nat × Nat :=
  match e with
  | .timeoutError => (t + 1, c, tr)
  | .brokenPipe _ => (t, c, tr + 1)
  | .eofError _ => (t, c, tr + 1)
  | .bleakDBus m => if hasTransientError m then (t, c, tr + 1) else (t, c + 1, tr)
  | .bleakError m => if hasTransientError m then (t, c, tr + 1) else (t, c + 1, tr)
  | .attributeError m =>
      if hasTransientError m then (t, c, tr + 1) else (t, c + 1, tr)

/-- The forced cooldown sleep performed by the `except` clauses before
the next attempt: `BLEAK_DBUS_BACKOFF_TIME` after `EOFError` and after a
`BleakDBusError`, none otherwise. -/
def excBackoff : Exc → ℚ
  | .eofError _ => BLEAK_DBUS_BACKOFF_TIME
  | .bleakDBus _ => BLEAK_DBUS_BACKOFF_TIME
  | _ => 0

/-- GATT service collections are opaque to the module; identified by id. -/
abbrev ServiceSet := Nat

/-- The state of a `BleakClientWithServiceCache` relevant to
`get_services`: the module-level capability flags, the cached services,
the resolved services, and whether `disconnect()` has been called. -/
structure CacheClient where
  bleakHasServiceCacheSupport : Bool
  canCacheServices : Bool
  cachedServices : Option ServiceSet
  services : Option ServiceSet
  servicesResolved : Bool
  disconnected : Bool
deriving DecidableEq

/-- `BleakClientWithServiceCache._has_service_cache`. -/
def CacheClient.hasServiceCache (c : CacheClient) : Bool :=
  !c.bleakHasServiceCacheSupport && c.canCacheServices && c.cachedServices.isSome

/-- `BleakClientWithServiceCache.get_services`: `superRes` is the outcome
of the `super().get_services(...)` call (performed only when the cache
path is not taken).  Returns the result together with the updated client:
on a failing superclass call the client is disconnected and the same
error is re-raised. -/
def CacheClient.getServices (c : CacheClient) (superRes : Except String ServiceSet) :
    Except String ServiceSet × CacheClient :=
  match c.cachedServices, c.hasServiceCache with
  | some cached, true =>
      (.ok cached, { c with services := some cached, servicesResolved := true })
  | _, _ =>
      match superRes with
      | .ok s => (.ok s, c)
      | .error e => (.error e, { c with disconnected := true })

/-- The per-call parameters of `establish_connection` that affect the
modelled state: `max_attempts`, whether a `disconnected_callback` was
given, the `cached_services` argument, and whether `client_class` is a
subclass of `BleakClientWithServiceCache`. -/
structure EstParams where
  maxAttempts : Nat
  hasDisconnectedCallback : Bool
  cachedServices : Option ServiceSet
  usesServiceCacheClient : Bool
deriving DecidableEq

/-- The client object constructed by `client_class(device, **kwargs)` in
the loop, with the mutations applied at construction time.  `id` numbers
constructions so that object identity (reuse vs. reconstruction) is
observable. -/
structure Client where
  id : Nat
  device : BLEDevice
  disconnectedCallback : Bool
  cachedServices : Option ServiceSet
deriving DecidableEq

/-- `client = client_class(device, **kwargs)` plus the two conditional
mutations that follow it in the source. -/
def mkClient (p : EstParams) (idN : Nat) (d : BLEDevice) (canUse : Bool) : Client :=
  { id := idN, device := d,
    disconnectedCallback := p.hasDisconnectedCallback,
    cachedServices :=
      if canUse && p.cachedServices.isSome && p.usesServiceCacheClient then
        p.cachedServices
      else none }

/-- The loop-local state of one `establish_connection` invocation. -/
structure EstState where
  timeouts : Nat
  connectErrors : Nat
  transientErrors : Nat
  attempt : Nat
  canUseCachedServices : Bool
  createClient : Bool
  device : BLEDevice
  client : Option Client
  nextClientId : Nat
deriving DecidableEq

/-- The state at entry of the `while` loop. -/
def initEstState (d : BLEDevice) : EstState :=
  { timeouts := 0, connectErrors := 0, transientErrors := 0, attempt := 0,
    canUseCachedServices := true, createClient := true,
    device := d, client := none, nextClientId := 0 }

/-- The outcome of one `client.connect(...)` call. -/
inductive Outcome where
  | success
  | failure (e : Exc)
deriving DecidableEq

/-- The external events of one loop iteration: the device returned by
`ble_device_callback` (if a callback was supplied), the result of
`freshen_ble_device` on the current device, and the connect outcome. -/
structure AttemptEnv where
  callbackDevice : Option BLEDevice
  freshDevice : Option BLEDevice
  outcome : Outcome
deriving DecidableEq

/-- The device-refresh prefix of the loop body: apply the callback, then
adopt the freshened device (clearing `can_use_cached_services`) if the
resolver produced one. -/
def deviceAfterRefresh (st : EstState) (env : AttemptEnv) : BLEDevice × Bool :=
  let d := match env.callbackDevice with
    | some cd => cd
    | none => st.device
  match env.freshDevice with
  | some fd => (fd, false)
  | none => (d, st.canUseCachedServices)

/-- The result of one loop iteration: connected (return the client held
in the state), raise a terminal error, or retry.  The rational records
the forced cooldown sleep performed during the iteration. -/
inductive StepRes where
  | connected (st : EstState) (backoff : ℚ)
  | raised (k : TerminalKind) (st : EstState) (backoff : ℚ)
  | retry (st : EstState) (backoff : ℚ)
deriving DecidableEq

/-- The state after the pre-connect prefix of one loop iteration:
attempt counter bumped, device refreshed, and the client either rebuilt
(`create_client or ble_device_has_changed(original_device, device)`) or
reused unchanged. -/
def connectBase (p : EstParams) (st : EstState) (env : AttemptEnv) : EstState :=
  { timeouts := st.timeouts, connectErrors := st.connectErrors,
    transientErrors := st.transientErrors, attempt := st.attempt + 1,
    canUseCachedServices := (deviceAfterRefresh st env).2, createClient := false,
    device := (deviceAfterRefresh st env).1,
    client :=
      if st.createClient ||
          bleDeviceHasChanged st.device (deviceAfterRefresh st env).1 then
        some (mkClient p st.nextClientId (deviceAfterRefresh st env).1
          (deviceAfterRefresh st env).2)
      else st.client,
    nextClientId :=
      if st.createClient ||
          bleDeviceHasChanged st.device (deviceAfterRefresh st env).1 then
        st.nextClientId + 1
      else st.nextClientId }

/-- The state after a failed connect: `connectBase` with the counters
bumped by the matching `except` clause. -/
def failState (p : EstParams) (st : EstState) (env : AttemptEnv) (e : Exc) :
    EstState :=
  { connectBase p st env with
      timeouts := (newCounters st.timeouts st.connectErrors st.transientErrors e).1,
      connectErrors :=
        (newCounters st.timeouts st.connectErrors st.transientErrors e).2.1,
      transientErrors :=
        (newCounters st.timeouts st.connectErrors st.transientErrors e).2.2 }

/-- One iteration of the `while True` loop of `establish_connection`. -/
def establishStep (p : EstParams) (st : EstState) (env : AttemptEnv) : StepRes :=
  match env.outcome with
  | .success => .connected (connectBase p st env) 0
  | .failure e =>
      match raiseIfNeeded
          (newCounters st.timeouts st.connectErrors st.transientErrors e).1
          (newCounters st.timeouts st.connectErrors st.transientErrors e).2.1
          (newCounters st.timeouts st.connectErrors st.transientErrors e).2.2
          p.maxAttempts e with
      | none => .retry (failState p st env e) (excBackoff e)
      | some k => .raised k (failState p st env e) (excBackoff e)

/-- The result of running the loop against a list of injected attempt
environments: success, terminal raise, or the injected outcomes ran out
while the loop would still retry. -/
inductive RunResult where
  | connected (st : EstState)
  | raised (k : TerminalKind) (st : EstState)
  | running (st : EstState)
deriving DecidableEq

/-- Run the `establish_connection` loop over a list of injected attempt
environments. -/
def runEstablish (p : EstParams) (st : EstState) : List AttemptEnv → RunResult
  | [] => .running st
  | env :: rest =>
    match establishStep p st env with
    | .connected st2 _ => .connected st2
    | .raised k st2 _ => .raised k st2
    | .retry st2 _ => runEstablish p st2 rest

/-- The loop is still prepared to retry. -/
def RunResult.keptRunning : RunResult → Bool
  | .running _ => true
  | _ => false

/-- The kind of the terminal exception, if one was raised. -/
def RunResult.raisedKind : RunResult → Option TerminalKind
  | .raised k _ => some k
  | _ => none

/-- The final loop state of a run. -/
def RunResult.state : RunResult → EstState
  | .connected st => st
  | .raised _ st => st
  | .running st => st

/-- The state carried by a step result. -/
def StepRes.state : StepRes → EstState
  | .connected st _ => st
  | .raised _ st _ => st
  | .retry st _ => st

/-- The forced cooldown recorded by a step result. -/
def StepRes.backoff : StepRes → ℚ
  | .connected _ b => b
  | .raised _ _ b => b
  | .retry _ b => b

/-- Whether a step result retries. -/
def StepRes.isRetry : StepRes → Bool
  | .retry _ _ => true
  | _ => false

/-- `isinstance(exc, EOFError)`. -/
def Exc.isEOF : Exc → Bool
  | .eofError _ => true
  | _ => false

/-- Concrete snapshot for C2, scenario A: the original path is present
with RSSI −70 and a sibling sits at exactly −64 = incumbent + 6. -/
def c2SnapA : Snapshot :=
  [("/org/bluez/hci0/dev_AA_BB_CC_DD_EE_FF",
    some { address := "AA:BB:CC:DD:EE:FF", aliasName := "X", rssi := some (-70) }),
   ("/org/bluez/hci1/dev_AA_BB_CC_DD_EE_FF",
    some { address := "AA:BB:CC:DD:EE:FF", aliasName := "X", rssi := some (-64) })]

/-- Concrete snapshot for C2, scenario B: original at −90, a sibling at
−80 already adopted as best, then a second sibling at −79 (which exceeds
the −80 incumbent by only 1). -/
def c2SnapB : Snapshot :=
  [("/org/bluez/hci0/dev_AA_BB_CC_DD_EE_FF",
    some { address := "AA:BB:CC:DD:EE:FF", aliasName := "X", rssi := some (-90) }),
   ("/org/bluez/hci1/dev_AA_BB_CC_DD_EE_FF",
    some { address := "AA:BB:CC:DD:EE:FF", aliasName := "X", rssi := some (-80) }),
   ("/org/bluez/hci2/dev_AA_BB_CC_DD_EE_FF",
    some { address := "AA:BB:CC:DD:EE:FF", aliasName := "X", rssi := some (-79) })]

/-- Predicate used to state that a snapshot reports no candidate with a
signal strength above `bound` at path `pth` (absent paths and paths with
a false-y RSSI count as not above). -/
def candidateRssiLE (props : Snapshot) (pth : String) (bound : Int) : Bool :=
  match deviceRecord props pth with
  | none => true
  | some d =>
    match d.rssi with
    | none => true
    | some v => decide (v ≤ bound)

/-- An attempt whose connect times out, with no device callback and no
resolver freshening. -/
def timeoutEnv : AttemptEnv :=
  { callbackDevice := none, freshDevice := none, outcome := .failure .timeoutError }

/-- An attempt whose connect raises `BrokenPipeError`. -/
def brokenPipeEnv : AttemptEnv :=
  { callbackDevice := none, freshDevice := none,
    outcome := .failure (.brokenPipe "[Errno 32] Broken pipe") }

/-- The loop state after at least one failed attempt on a fixed device
`d` with no callback/freshening: counters as given, the one client built
on the first attempt still live. -/
def failedState (p : EstParams) (d : BLEDevice) (t c tr k : Nat) : EstState :=
  { timeouts := t, connectErrors := c, transientErrors := tr, attempt := k,
    canUseCachedServices := true, createClient := false, device := d,
    client := some (mkClient p 0 d true), nextClientId := 1 }

/-- The loop state after `k` consecutive timed-out attempts. -/
def stAfterTimeouts (p : EstParams) (d : BLEDevice) : Nat → EstState
  | 0 => initEstState d
  | k + 1 => failedState p d (k + 1) 0 0 (k + 1)

/-- The loop state after `k` consecutive broken-pipe attempts. -/
def stAfterTransients (p : EstParams) (d : BLEDevice) : Nat → EstState
  | 0 => initEstState d
  | k + 1 => failedState p d 0 0 (k + 1) (k + 1)

/-- Concrete parameters for the retry-loop witnesses: the module default
budget of 4 attempts, no callback, no cache. -/
def probeParams : EstParams :=
  { maxAttempts := 4, hasDisconnectedCallback := false,
    cachedServices := none, usesServiceCacheClient := false }

/-- Concrete device for the retry-loop witnesses. -/
def probeDevice : BLEDevice :=
  { address := "AA:BB:CC:DD:EE:FF", name := "dev", details := none, rssi := -60 }

/-- Concrete device on the hci0 path for the client-reuse witness. -/
def c4DevA : BLEDevice :=
  { address := "AA:BB:CC:DD:EE:FF", name := "dev",
    details := some "/org/bluez/hci0/dev_AA_BB_CC_DD_EE_FF", rssi := -50 }

/-- The same device moved to the hci1 path. -/
def c4DevB : BLEDevice :=
  { address := "AA:BB:CC:DD:EE:FF", name := "dev",
    details := some "/org/bluez/hci1/dev_AA_BB_CC_DD_EE_FF", rssi := -44 }

/-- A mid-loop state holding the client built on the first attempt. -/
def c4State : EstState :=
  { timeouts := 1, connectErrors := 0, transientErrors := 0, attempt := 1,
    canUseCachedServices := true, createClient := false, device := c4DevA,
    client := some (mkClient probeParams 0 c4DevA true), nextClientId := 1 }

/-- An attempt whose callback hands back a device on a different path. -/
def c4EnvChanged : AttemptEnv :=
  { callbackDevice := some c4DevB, freshDevice := none, outcome := .success }

/-! ## Helper lemmas about the resolver fold -/

theorem foldl_candidateStep_inv (props : Snapshot) (dp : String) (dr : Int)
    (P : String × Int → Prop)
    (hstep : ∀ st pth, P st → P (candidateStep props dp dr st pth)) :
    ∀ (l : List String) (st : String × Int), P st →
      P (l.foldl (candidateStep props dp dr) st) := by
  intro l
  induction l with
  | nil => intro st h; exact h
  | cons a t ih => intro st h; exact ih _ (hstep st a h)

theorem candidateStep_eq_self_or_accept (props : Snapshot) (dp : String) (dr : Int)
    (st : String × Int) (pth : String) :
    candidateStep props dp dr st pth = st ∨
      (pth ≠ dp ∧ ∃ d, deviceRecord props pth = some d ∧
        candidateStep props dp dr st pth = (pth, rssiOrUnreachable d.rssi)) := by
  unfold candidateStep
  split
  · exact Or.inl rfl
  next hne =>
    cases hrec : deviceRecord props pth with
    | none => exact Or.inl rfl
    | some d =>
      simp only []
      split
      · exact Or.inl rfl
      · exact Or.inr ⟨hne, d, rfl, rfl⟩

theorem candidateStep_fst_ne (props : Snapshot) (dp : String) (dr : Int)
    (st : String × Int) (pth : String) (h : st.1 ≠ dp) :
    (candidateStep props dp dr st pth).1 ≠ dp := by
  rcases candidateStep_eq_self_or_accept props dp dr st pth with heq | ⟨hne, d, _, heq⟩ <;>
    rw [heq]
  · exact h
  · exact hne

theorem foldl_fst_ne (props : Snapshot) (dp : String) (dr : Int)
    (l : List String) (st : String × Int) (h : st.1 ≠ dp) :
    (l.foldl (candidateStep props dp dr) st).1 ≠ dp :=
  foldl_candidateStep_inv props dp dr (fun st2 => st2.1 ≠ dp)
    (fun st2 pth hp => candidateStep_fst_ne props dp dr st2 pth hp) l st h

theorem candidateStep_accept_unreachable (props : Snapshot) (dp : String) (dr : Int)
    (b : String) (pth : String) (d : DevProps)
    (hp : pth ≠ dp) (hrec : deviceRecord props pth = some d) :
    candidateStep props dp dr (b, UNREACHABLE_RSSI) pth =
      (pth, rssiOrUnreachable d.rssi) := by
  unfold candidateStep
  rw [if_neg hp, hrec]
  simp

/-! ## Claim theorems -/

/-- C9: every error raised while reading the property snapshot is swallowed
by `get_bluez_device`, which returns `None` instead of propagating it, for
every input path and rssi. -/
theorem C9_resolver_swallows_errors (e : String) (devicePath : String)
    (rssi : Option Int) :
    getBluezDeviceSafe (.error e) devicePath rssi = none := rfl

/-- C6: whenever the superclass `get_services` call fails after connect
(the cached-services path not being taken), `BleakClientWithServiceCache`
disconnects the client and re-raises the very same exception, never
swallowing it. -/
theorem C6_get_services_disconnects (c : CacheClient) (e : String)
    (h : c.hasServiceCache = false) :
    c.getServices (.error e) = (.error e, { c with disconnected := true }) := by
  unfold CacheClient.getServices
  rw [h]
  cases hc : c.cachedServices <;> rfl

/-- C6 witness: a concrete client without a usable cache; a failing
superclass call yields the same error and a disconnected client. -/
theorem C6_get_services_disconnects_witness :
    CacheClient.getServices
        { bleakHasServiceCacheSupport := false, canCacheServices := true,
          cachedServices := none, services := none, servicesResolved := false,
          disconnected := false }
        (.error "getServices boom") =
      (.error "getServices boom",
        { bleakHasServiceCacheSupport := false, canCacheServices := true,
          cachedServices := none, services := none, servicesResolved := false,
          disconnected := true }) :=
  C6_get_services_disconnects
    { bleakHasServiceCacheSupport := false, canCacheServices := true,
      cachedServices := none, services := none, servicesResolved := false,
      disconnected := false } "getServices boom" (by decide)

/-- C7: on a connect failure the fixed 0.25 s cooldown sleep happens
exactly when the failure is an `EOFError` or a `BleakDBusError`; timeouts,
broken pipes and non-DBus transport/attribute errors sleep 0. -/
theorem C7_dbus_backoff (p : EstParams) (st : EstState) (env : AttemptEnv)
    (e : Exc) (h : env.outcome = .failure e) :
    (establishStep p st env).backoff =
      (if e.isEOF || e.isBleakDBus then BLEAK_DBUS_BACKOFF_TIME else 0) ∧
    BLEAK_DBUS_BACKOFF_TIME = 1/4 := by
  constructor
  · unfold establishStep
    rw [h]
    cases hri : raiseIfNeeded (newCounters st.timeouts st.connectErrors
        st.transientErrors e).1
        (newCounters st.timeouts st.connectErrors st.transientErrors e).2.1
        (newCounters st.timeouts st.connectErrors st.transientErrors e).2.2
        p.maxAttempts e <;>
      cases e <;>
        simp_all [StepRes.backoff, excBackoff, Exc.isEOF, Exc.isBleakDBus]
  · rfl

/-- C7 witness: a timeout sleeps 0 and a DBus bleak error sleeps 0.25 s,
at a concrete state. -/
theorem C7_dbus_backoff_witness :
    (establishStep
        { maxAttempts := 4, hasDisconnectedCallback := false,
          cachedServices := none, usesServiceCacheClient := false }
        (initEstState
          { address := "AA:BB:CC:DD:EE:FF", name := "dev", details := none,
            rssi := -60 })
        { callbackDevice := none, freshDevice := none,
          outcome := .failure .timeoutError }).backoff = 0 ∧
    (establishStep
        { maxAttempts := 4, hasDisconnectedCallback := false,
          cachedServices := none, usesServiceCacheClient := false }
        (initEstState
          { address := "AA:BB:CC:DD:EE:FF", name := "dev", details := none,
            rssi := -60 })
        { callbackDevice := none, freshDevice := none,
          outcome := .failure (.bleakDBus "le-connection-abort-by-local") }).backoff =
      1/4 := by
  constructor
  · have := C7_dbus_backoff
      { maxAttempts := 4, hasDisconnectedCallback := false,
        cachedServices := none, usesServiceCacheClient := false }
      (initEstState
        { address := "AA:BB:CC:DD:EE:FF", name := "dev", details := none,
          rssi := -60 })
      { callbackDevice := none, freshDevice := none,
        outcome := .failure .timeoutError }
      .timeoutError rfl
    rw [this.1]
    rfl
  · have := C7_dbus_backoff
      { maxAttempts := 4, hasDisconnectedCallback := false,
        cachedServices := none, usesServiceCacheClient := false }
      (initEstState
        { address := "AA:BB:CC:DD:EE:FF", name := "dev", details := none,
          rssi := -60 })
      { callbackDevice := none, freshDevice := none,
        outcome := .failure (.bleakDBus "le-connection-abort-by-local") }
      (.bleakDBus "le-connection-abort-by-local") rfl
    rw [this.1, this.2]
    rfl

/-- C2 counterexample: the claim says a candidate whose strength is
exactly incumbent + 6 is rejected; the code accepts it (the rejection
test is `rssi - 6 < device_rssi`, strict), so with only such a candidate
the resolver returns a fresh handle instead of `None`.  It also says a
candidate must exceed the incumbent by more than 6: in scenario B the
final best (−79) exceeds the current best (−80) by only 1 and is still
adopted, because the threshold clause compares against the original
handle's strength (−90), not the current best. -/
theorem C2_rssi_threshold_counterexample :
    getBluezDevice c2SnapA "/org/bluez/hci0/dev_AA_BB_CC_DD_EE_FF" (some (-70)) ≠
      none ∧
    getBluezDevice c2SnapA "/org/bluez/hci0/dev_AA_BB_CC_DD_EE_FF" (some (-70)) =
      some { address := "AA:BB:CC:DD:EE:FF", name := "X",
             details := some "/org/bluez/hci1/dev_AA_BB_CC_DD_EE_FF",
             rssi := -64 } ∧
    getBluezDevice c2SnapB "/org/bluez/hci0/dev_AA_BB_CC_DD_EE_FF" (some (-90)) =
      some { address := "AA:BB:CC:DD:EE:FF", name := "X",
             details := some "/org/bluez/hci2/dev_AA_BB_CC_DD_EE_FF",
             rssi := -79 } := by
  refine ⟨?_, by decide, by decide⟩
  decide

/-- C2 (amended): while the incumbent best is not the unreachable
sentinel, a candidate with a truthy RSSI `r` is adopted iff `r` is at
least the original handle's strength plus the switch threshold (6) and
not lower than the current best — so a candidate at exactly
original + 6 is accepted, and a candidate below the current best is
always rejected. -/
theorem C2_rssi_threshold_amended (props : Snapshot) (dp : String) (dr rb : Int)
    (b pth : String) (d : DevProps) (r : Int)
    (hrb : rb ≠ UNREACHABLE_RSSI) (hp : pth ≠ dp)
    (hrec : deviceRecord props pth = some d)
    (hr : d.rssi = some r) (hr0 : r ≠ 0) :
    candidateStep props dp dr (b, rb) pth =
      (if dr + RSSI_SWITCH_THRESHOLD ≤ r ∧ rb ≤ r then (pth, r) else (b, rb)) ∧
    (r < rb → candidateStep props dp dr (b, rb) pth = (b, rb)) ∧
    (r = dr + RSSI_SWITCH_THRESHOLD → rb ≤ r →
      candidateStep props dp dr (b, rb) pth = (pth, r)) := by
  have h6 : RSSI_SWITCH_THRESHOLD = 6 := rfl
  have hmain : candidateStep props dp dr (b, rb) pth =
      if dr + RSSI_SWITCH_THRESHOLD ≤ r ∧ rb ≤ r then (pth, r) else (b, rb) := by
    unfold candidateStep
    rw [if_neg hp, hrec]
    simp only [hr, rssiOrUnreachable, if_neg hr0, h6]
    split
    next hskip =>
      simp only [Bool.and_eq_true, Bool.or_eq_true, decide_eq_true_eq] at hskip
      have hno : ¬(dr + 6 ≤ r ∧ rb ≤ r) := by
        rintro ⟨ha1, ha2⟩
        rcases hskip.2 with (h | h) | h
        · exact hr0 h
        · omega
        · omega
      rw [if_neg hno]
    next hskip =>
      have hB : ¬((r = 0 ∨ r - 6 < dr) ∨ r < rb) := by
        intro hb
        exact hskip (by
          simp only [Bool.and_eq_true, Bool.or_eq_true, decide_eq_true_eq]
          exact ⟨hrb, hb⟩)
      rw [not_or, not_or] at hB
      rw [if_pos ⟨by omega, by omega⟩]
  refine ⟨hmain, fun hlt => ?_, fun he hge => ?_⟩
  · rw [hmain, if_neg]
    intro hcon
    exact absurd hcon.2 (by omega)
  · rw [hmain, if_pos ⟨le_of_eq he.symm, hge⟩]

/-- C2 witness: the amended characterisation evaluated at the
scenario-A candidate (−64 against an original of −70): accepted. -/
theorem C2_rssi_threshold_amended_witness :
    candidateStep c2SnapA "/org/bluez/hci0/dev_AA_BB_CC_DD_EE_FF" (-70)
        ("/org/bluez/hci0/dev_AA_BB_CC_DD_EE_FF", -70)
        "/org/bluez/hci1/dev_AA_BB_CC_DD_EE_FF" =
      ("/org/bluez/hci1/dev_AA_BB_CC_DD_EE_FF", -64) := by
  have := C2_rssi_threshold_amended c2SnapA
    "/org/bluez/hci0/dev_AA_BB_CC_DD_EE_FF" (-70) (-70)
    "/org/bluez/hci0/dev_AA_BB_CC_DD_EE_FF"
    "/org/bluez/hci1/dev_AA_BB_CC_DD_EE_FF"
    { address := "AA:BB:CC:DD:EE:FF", aliasName := "X", rssi := some (-64) }
    (-64) (by decide) (by decide) (by decide) (by decide) (by decide)
  exact this.2.2 (by decide) (by decide)

theorem foldl_record_inv (props : Snapshot) (dp : String) (dr : Int)
    (l : List String) (st : String × Int)
    (h : st.1 = dp ∨ ∃ d, deviceRecord props st.1 = some d ∧
      st.2 = rssiOrUnreachable d.rssi) :
    (l.foldl (candidateStep props dp dr) st).1 = dp ∨
      ∃ d, deviceRecord props (l.foldl (candidateStep props dp dr) st).1 = some d ∧
        (l.foldl (candidateStep props dp dr) st).2 = rssiOrUnreachable d.rssi := by
  refine foldl_candidateStep_inv props dp dr
    (fun st2 => st2.1 = dp ∨ ∃ d, deviceRecord props st2.1 = some d ∧
      st2.2 = rssiOrUnreachable d.rssi) ?_ l st h
  intro st2 pth hp
  rcases candidateStep_eq_self_or_accept props dp dr st2 pth with heq | ⟨_, d, hd, heq⟩ <;>
    rw [heq]
  · exact hp
  · exact Or.inr ⟨d, hd, rfl⟩

theorem foldl_accepts_of_unreachable (props : Snapshot) (dp : String) (dr : Int) :
    ∀ (l : List String) (st : String × Int),
      (st.1 = dp → st.2 = UNREACHABLE_RSSI) →
      (∃ c ∈ l, c ≠ dp ∧ (deviceRecord props c).isSome = true) →
      (l.foldl (candidateStep props dp dr) st).1 ≠ dp := by
  intro l
  induction l with
  | nil =>
    intro st _ hex
    rcases hex with ⟨c, hc, _⟩
    exact absurd hc (List.not_mem_nil c)
  | cons a t ih =>
    intro st hinv hex
    simp only [List.foldl_cons]
    by_cases hst : st.1 = dp
    · have hu : st.2 = UNREACHABLE_RSSI := hinv hst
      rcases hex with ⟨c, hc, hcd, hcr⟩
      rcases List.mem_cons.mp hc with rfl | hct
      · obtain ⟨d, hd⟩ := Option.isSome_iff_exists.mp hcr
        have hpair : st = (st.1, UNREACHABLE_RSSI) := by rw [← hu]
        rw [hpair,
          candidateStep_accept_unreachable props dp dr st.1 c d hcd hd]
        exact foldl_fst_ne props dp dr t _ hcd
      · rcases candidateStep_eq_self_or_accept props dp dr st a with
          heq | ⟨hne, d2, _, heq⟩ <;> rw [heq]
        · exact ih st hinv ⟨c, hct, hcd, hcr⟩
        · exact foldl_fst_ne props dp dr t _ hne
    · exact foldl_fst_ne props dp dr t _ (candidateStep_fst_ne props dp dr st a hst)

/-- C5: if the original backend path is absent from the snapshot (or
lacks the device-interface record), the incumbent is the unreachable
sentinel, so any present sibling candidate is accepted and a fresh handle
is returned regardless of the sibling's signal strength. -/
theorem C5_vanished_original (props : Snapshot) (dp : String) (rssi : Option Int)
    (c : String)
    (h0 : deviceRecord props dp = none)
    (hc : c ∈ getPossiblePaths dp)
    (hcd : c ≠ dp)
    (hrec : (deviceRecord props c).isSome = true) :
    (getBluezDevice props dp rssi).isSome = true := by
  have hdr : bluezDeviceRssi props dp rssi = UNREACHABLE_RSSI := by
    unfold bluezDeviceRssi
    rw [h0]
    rfl
  have hne : (bluezBest props dp rssi).1 ≠ dp := by
    unfold bluezBest
    rw [hdr]
    exact foldl_accepts_of_unreachable props dp UNREACHABLE_RSSI
      (getPossiblePaths dp) (dp, UNREACHABLE_RSSI) (fun _ => rfl)
      ⟨c, hc, hcd, hrec⟩
  have hrec2 : (bluezBest props dp rssi).1 = dp ∨
      ∃ d, deviceRecord props (bluezBest props dp rssi).1 = some d ∧
        (bluezBest props dp rssi).2 = rssiOrUnreachable d.rssi := by
    unfold bluezBest
    exact foldl_record_inv props dp _ (getPossiblePaths dp) (dp, _) (Or.inl rfl)
  rcases hrec2 with h | ⟨d, hd, _⟩
  · exact absurd h hne
  · unfold getBluezDevice
    rw [if_neg hne, hd]
    rfl

/-- C5 witness: snapshot with `/org/bluez/hci2/dev_X` absent and
`/org/bluez/hci5/dev_X` present with RSSI −40: a handle is returned and
it is built from the hci5 path with RSSI −40. -/
theorem C5_vanished_original_witness :
    (getBluezDevice
        [("/org/bluez/hci5/dev_AA_BB_CC_DD_EE_FF",
          some { address := "AA:BB:CC:DD:EE:FF", aliasName := "X",
                 rssi := some (-40) })]
        "/org/bluez/hci2/dev_AA_BB_CC_DD_EE_FF" (some (-70))).isSome = true ∧
    getBluezDevice
        [("/org/bluez/hci5/dev_AA_BB_CC_DD_EE_FF",
          some { address := "AA:BB:CC:DD:EE:FF", aliasName := "X",
                 rssi := some (-40) })]
        "/org/bluez/hci2/dev_AA_BB_CC_DD_EE_FF" (some (-70)) =
      some { address := "AA:BB:CC:DD:EE:FF", name := "X",
             details := some "/org/bluez/hci5/dev_AA_BB_CC_DD_EE_FF",
             rssi := -40 } := by
  constructor
  · exact C5_vanished_original
      [("/org/bluez/hci5/dev_AA_BB_CC_DD_EE_FF",
        some { address := "AA:BB:CC:DD:EE:FF", aliasName := "X",
               rssi := some (-40) })]
      "/org/bluez/hci2/dev_AA_BB_CC_DD_EE_FF" (some (-70))
      "/org/bluez/hci5/dev_AA_BB_CC_DD_EE_FF"
      (by decide) (by decide) (by decide) (by decide)
  · decide

theorem candidateStep_skip_of_le (props : Snapshot) (dp : String) (r0 : Int)
    (pth : String)
    (hru : r0 ≠ UNREACHABLE_RSSI)
    (hle : candidateRssiLE props pth r0 = true) :
    candidateStep props dp r0 (dp, r0) pth = (dp, r0) := by
  have hne2 : decide (r0 ≠ UNREACHABLE_RSSI) = true := by simp [hru]
  unfold candidateStep
  split
  · rfl
  next hne =>
    cases hd : deviceRecord props pth with
    | none => rfl
    | some d =>
      have hle2 : (match d.rssi with
          | none => true
          | some v => decide (v ≤ r0)) = true := by
        unfold candidateRssiLE at hle
        rw [hd] at hle
        exact hle
      cases hrv : d.rssi with
      | none => simp [hne2, hrv]
      | some v =>
        have hv : v ≤ r0 := by
          rw [hrv] at hle2
          exact of_decide_eq_true hle2
        have hlt : decide (v - RSSI_SWITCH_THRESHOLD < r0) = true := by
          have h6 : RSSI_SWITCH_THRESHOLD = 6 := rfl
          simp only [decide_eq_true_eq, h6]
          omega
        simp [hne2, hrv, hlt]

theorem foldl_eq_of_fix (props : Snapshot) (dp : String) (dr : Int)
    (st0 : String × Int) :
    ∀ l : List String, (∀ pth ∈ l, candidateStep props dp dr st0 pth = st0) →
      l.foldl (candidateStep props dp dr) st0 = st0 := by
  intro l
  induction l with
  | nil => intro _; rfl
  | cons a t ih =>
    intro h
    simp only [List.foldl_cons]
    rw [h a (List.mem_cons_self a t)]
    exact ih (fun pth hp => h pth (List.mem_cons_of_mem a hp))

theorem bluezBest_fst_or_record (props : Snapshot) (dp : String)
    (r : Option Int) :
    (bluezBest props dp r).1 = dp ∨
      ∃ d, deviceRecord props (bluezBest props dp r).1 = some d ∧
        (bluezBest props dp r).2 = rssiOrUnreachable d.rssi := by
  unfold bluezBest
  exact foldl_record_inv props dp _ (getPossiblePaths dp) (dp, _) (Or.inl rfl)

theorem getBluezDevice_some_shape (props : Snapshot) (dp : String)
    (r : Option Int) (dev : BLEDevice)
    (h : getBluezDevice props dp r = some dev) :
    ∃ bp d, bp ≠ dp ∧ deviceRecord props bp = some d ∧
      dev = { address := d.address, name := d.aliasName, details := some bp,
              rssi := rssiOrUnreachable d.rssi, uuids := d.uuids,
              manufacturerData := d.manufacturerData } := by
  unfold getBluezDevice at h
  by_cases hfd : (bluezBest props dp r).1 = dp
  · rw [if_pos hfd] at h
    exact absurd h (by simp)
  · rw [if_neg hfd] at h
    rcases bluezBest_fst_or_record props dp r with hcon | ⟨d, hd, hrssi⟩
    · exact absurd hcon hfd
    · rw [hd] at h
      have h2 : (some { address := d.address, name := d.aliasName,
                        details := some (bluezBest props dp r).1,
                        rssi := (bluezBest props dp r).2, uuids := d.uuids,
                        manufacturerData := d.manufacturerData } :
          Option BLEDevice) = some dev := h
      rw [hrssi] at h2
      exact ⟨(bluezBest props dp r).1, d, hfd, hd, (Option.some.inj h2).symm⟩

/-- C8: the resolver never re-emits a handle for the original path (a
returned handle is always built from a different sibling path), and when
the original record is present with a truthy, non-sentinel strength that
no enumerated candidate exceeds, it returns `None` ("no fresher handle"),
making resolution idempotent on an up-to-date snapshot. -/
theorem C8_resolver_idempotent (props : Snapshot) (dp : String) (r0 : Int)
    (h0 : (deviceRecord props dp).isSome = true)
    (hr0 : r0 ≠ 0) (hru : r0 ≠ UNREACHABLE_RSSI)
    (hbest : ∀ c ∈ getPossiblePaths dp, candidateRssiLE props c r0 = true) :
    getBluezDevice props dp (some r0) = none ∧
    ∀ (props2 : Snapshot) (dp2 : String) (r2 : Option Int) (dev : BLEDevice),
      getBluezDevice props2 dp2 r2 = some dev → dev.details ≠ some dp2 := by
  constructor
  · have hdr : bluezDeviceRssi props dp (some r0) = r0 := by
      unfold bluezDeviceRssi
      rw [if_pos h0]
      simp [rssiOrUnreachable, hr0]
    have hfix : bluezBest props dp (some r0) = (dp, r0) := by
      unfold bluezBest
      rw [hdr]
      exact foldl_eq_of_fix props dp r0 (dp, r0) (getPossiblePaths dp)
        (fun pth hp => candidateStep_skip_of_le props dp r0 pth hru (hbest pth hp))
    unfold getBluezDevice
    rw [hfix]
    simp
  · intro props2 dp2 r2 dev hsome hdet
    obtain ⟨bp, d, hbp, _, hdev⟩ := getBluezDevice_some_shape props2 dp2 r2 dev hsome
    subst hdev
    exact hbp (Option.some.inj hdet)

/-- C8 witness: a snapshot where the original path already carries the
best signal (−40 against a sibling at −90): resolution returns `None`. -/
theorem C8_resolver_idempotent_witness :
    getBluezDevice
        [("/org/bluez/hci0/dev_AA_BB_CC_DD_EE_FF",
          some { address := "AA:BB:CC:DD:EE:FF", aliasName := "X",
                 rssi := some (-40) }),
         ("/org/bluez/hci1/dev_AA_BB_CC_DD_EE_FF",
          some { address := "AA:BB:CC:DD:EE:FF", aliasName := "X",
                 rssi := some (-90) })]
        "/org/bluez/hci0/dev_AA_BB_CC_DD_EE_FF" (some (-40)) = none :=
  (C8_resolver_idempotent
    [("/org/bluez/hci0/dev_AA_BB_CC_DD_EE_FF",
      some { address := "AA:BB:CC:DD:EE:FF", aliasName := "X",
             rssi := some (-40) }),
     ("/org/bluez/hci1/dev_AA_BB_CC_DD_EE_FF",
      some { address := "AA:BB:CC:DD:EE:FF", aliasName := "X",
             rssi := some (-90) })]
    "/org/bluez/hci0/dev_AA_BB_CC_DD_EE_FF" (-40)
    (by decide) (by decide) (by decide) (by decide)).1

/-- C10: a candidate whose device record reports signal strength 0 (or
none at all) is treated as unreachable: while the incumbent best is not
the sentinel such a candidate is always rejected; and every returned
handle carries `rssi or UNREACHABLE_RSSI` of the winning record, so a
zero/absent-strength candidate that wins after the original vanished
yields a handle with strength −1000 rather than 0. -/
theorem C10_zero_rssi_sentinel (props : Snapshot) (dp : String) (dr rb : Int)
    (b pth : String) (d : DevProps)
    (hrb : rb ≠ UNREACHABLE_RSSI)
    (hrec : deviceRecord props pth = some d)
    (hz : d.rssi = none ∨ d.rssi = some 0) :
    candidateStep props dp dr (b, rb) pth = (b, rb) ∧
    (∀ (props2 : Snapshot) (dp2 : String) (r2 : Option Int) (dev : BLEDevice),
      getBluezDevice props2 dp2 r2 = some dev →
        ∃ bp d2, dev.details = some bp ∧ deviceRecord props2 bp = some d2 ∧
          dev.rssi = rssiOrUnreachable d2.rssi) ∧
    rssiOrUnreachable none = -1000 ∧ rssiOrUnreachable (some 0) = -1000 := by
  have hne2 : decide (rb ≠ UNREACHABLE_RSSI) = true := by simp [hrb]
  refine ⟨?_, ?_, rfl, rfl⟩
  · unfold candidateStep
    split
    · rfl
    · rw [hrec]
      rcases hz with hz | hz <;> simp [hne2, hz]
  · intro props2 dp2 r2 dev hsome
    obtain ⟨bp, d2, _, hd2, hdev⟩ :=
      getBluezDevice_some_shape props2 dp2 r2 dev hsome
    subst hdev
    exact ⟨bp, d2, rfl, hd2, rfl⟩

/-- C10 witness: the original hci0 path is absent and the hci1 sibling
reports RSSI 0: the returned handle carries −1000; and at a state whose
incumbent is −40, a zero-strength candidate is rejected. -/
theorem C10_zero_rssi_sentinel_witness :
    candidateStep
        [("/org/bluez/hci1/dev_AA_BB_CC_DD_EE_FF",
          some { address := "A", aliasName := "X", rssi := some 0 })]
        "/org/bluez/hci0/dev_AA_BB_CC_DD_EE_FF" (-40)
        ("/org/bluez/hci0/dev_AA_BB_CC_DD_EE_FF", -40)
        "/org/bluez/hci1/dev_AA_BB_CC_DD_EE_FF" =
      ("/org/bluez/hci0/dev_AA_BB_CC_DD_EE_FF", -40) ∧
    getBluezDevice
        [("/org/bluez/hci1/dev_AA_BB_CC_DD_EE_FF",
          some { address := "A", aliasName := "X", rssi := some 0 })]
        "/org/bluez/hci0/dev_AA_BB_CC_DD_EE_FF" (some (-40)) =
      some { address := "A", name := "X",
             details := some "/org/bluez/hci1/dev_AA_BB_CC_DD_EE_FF",
             rssi := -1000 } := by
  constructor
  · exact (C10_zero_rssi_sentinel
      [("/org/bluez/hci1/dev_AA_BB_CC_DD_EE_FF",
        some { address := "A", aliasName := "X", rssi := some 0 })]
      "/org/bluez/hci0/dev_AA_BB_CC_DD_EE_FF" (-40) (-40)
      "/org/bluez/hci0/dev_AA_BB_CC_DD_EE_FF"
      "/org/bluez/hci1/dev_AA_BB_CC_DD_EE_FF"
      { address := "A", aliasName := "X", rssi := some 0 }
      (by decide) (by decide) (Or.inr rfl)).1
  · decide

theorem establishStep_state_client (p : EstParams) (st : EstState)
    (env : AttemptEnv) :
    (establishStep p st env).state.client = (connectBase p st env).client ∧
    (establishStep p st env).state.nextClientId =
      (connectBase p st env).nextClientId := by
  rcases env with ⟨cb, fr, oc⟩
  cases oc with
  | success => exact ⟨rfl, rfl⟩
  | failure e =>
    cases hri : raiseIfNeeded
        (newCounters st.timeouts st.connectErrors st.transientErrors e).1
        (newCounters st.timeouts st.connectErrors st.transientErrors e).2.1
        (newCounters st.timeouts st.connectErrors st.transientErrors e).2.2
        p.maxAttempts e with
    | none =>
      simp only [establishStep, hri]
      exact ⟨rfl, rfl⟩
    | some k =>
      simp only [establishStep, hri]
      exact ⟨rfl, rfl⟩

/-- C4: the client is rebuilt exactly on the first iteration
(`create_client` starts true, no client exists yet) or when the device
identity changed between attempts — address differs, or both devices
carry a backend path and the paths differ; when neither holds the very
same client object is kept, so one invocation holds at most one live
client at a time. -/
theorem C4_client_reuse (p : EstParams) (st : EstState) (env : AttemptEnv) :
    (st.createClient = true →
      (establishStep p st env).state.client =
        some (mkClient p st.nextClientId (deviceAfterRefresh st env).1
          (deviceAfterRefresh st env).2) ∧
      (establishStep p st env).state.nextClientId = st.nextClientId + 1) ∧
    (st.createClient = false →
      bleDeviceHasChanged st.device (deviceAfterRefresh st env).1 = false →
      (establishStep p st env).state.client = st.client ∧
      (establishStep p st env).state.nextClientId = st.nextClientId) ∧
    (st.createClient = false →
      bleDeviceHasChanged st.device (deviceAfterRefresh st env).1 = true →
      (establishStep p st env).state.client =
        some (mkClient p st.nextClientId (deviceAfterRefresh st env).1
          (deviceAfterRefresh st env).2) ∧
      (establishStep p st env).state.nextClientId = st.nextClientId + 1) ∧
    (∀ a b : BLEDevice, bleDeviceHasChanged a b = true ↔
      (a.address ≠ b.address ∨
        ∃ pa pb, a.details = some pa ∧ b.details = some pb ∧ pa ≠ pb)) ∧
    (initEstState st.device).createClient = true ∧
    (initEstState st.device).client = none := by
  obtain ⟨hcl, hnx⟩ := establishStep_state_client p st env
  refine ⟨?_, ?_, ?_, ?_, rfl, rfl⟩
  · intro hc
    rw [hcl, hnx]
    unfold connectBase
    rw [hc]
    exact ⟨rfl, rfl⟩
  · intro hc hch
    rw [hcl, hnx]
    unfold connectBase
    rw [hc, hch]
    exact ⟨rfl, rfl⟩
  · intro hc hch
    rw [hcl, hnx]
    unfold connectBase
    rw [hc, hch]
    exact ⟨rfl, rfl⟩
  · intro a b
    unfold bleDeviceHasChanged
    by_cases hab : a.address = b.address
    · rw [hab]
      rw [bne_self_eq_false]
      cases ha : a.details with
      | none => simp [hab]
      | some pa =>
        cases hb : b.details with
        | none => simp [hab]
        | some pb => simp [hab, bne_iff_ne]
    · have hb : (a.address != b.address) = true := bne_iff_ne.mpr hab
      rw [hb]
      simp [hab]

theorem bleDeviceHasChanged_self (d : BLEDevice) :
    bleDeviceHasChanged d d = false := by
  unfold bleDeviceHasChanged
  rw [bne_self_eq_false]
  cases hd : d.details with
  | none => rfl
  | some q => simp

theorem connectBase_noRefresh (p : EstParams) (d : BLEDevice) (t c tr k : Nat)
    (env : AttemptEnv) (hcb : env.callbackDevice = none)
    (hfr : env.freshDevice = none) :
    connectBase p (failedState p d t c tr k) env =
      { timeouts := t, connectErrors := c, transientErrors := tr,
        attempt := k + 1, canUseCachedServices := true, createClient := false,
        device := d, client := some (mkClient p 0 d true), nextClientId := 1 } := by
  unfold connectBase deviceAfterRefresh failedState
  rw [hcb, hfr]
  simp [bleDeviceHasChanged_self]

theorem connectBase_noRefresh_init (p : EstParams) (d : BLEDevice)
    (env : AttemptEnv) (hcb : env.callbackDevice = none)
    (hfr : env.freshDevice = none) :
    connectBase p (initEstState d) env =
      { timeouts := 0, connectErrors := 0, transientErrors := 0,
        attempt := 1, canUseCachedServices := true, createClient := false,
        device := d, client := some (mkClient p 0 d true), nextClientId := 1 } := by
  unfold connectBase deviceAfterRefresh initEstState
  rw [hcb, hfr]
  simp

theorem establishStep_timeout (p : EstParams) (d : BLEDevice) (k : Nat) :
    establishStep p (stAfterTimeouts p d k) timeoutEnv =
      if k + 1 < p.maxAttempts then
        .retry (stAfterTimeouts p d (k + 1)) 0
      else .raised .notFound (stAfterTimeouts p d (k + 1)) 0 := by
  have hcnt : ∀ st : EstState, st.timeouts = k → st.connectErrors = 0 →
      st.transientErrors = 0 →
      newCounters st.timeouts st.connectErrors st.transientErrors .timeoutError =
        (k + 1, 0, 0) := by
    intro st h1 h2 h3
    rw [h1, h2, h3]
    rfl
  have hbase : connectBase p (stAfterTimeouts p d k) timeoutEnv =
      { timeouts := (stAfterTimeouts p d k).timeouts, connectErrors := 0,
        transientErrors := 0, attempt := k + 1, canUseCachedServices := true,
        createClient := false, device := d,
        client := some (mkClient p 0 d true), nextClientId := 1 } := by
    cases k with
    | zero => exact connectBase_noRefresh_init p d timeoutEnv rfl rfl
    | succ j => exact connectBase_noRefresh p d (j + 1) 0 0 (j + 1) timeoutEnv rfl rfl
  have hfail : failState p (stAfterTimeouts p d k) timeoutEnv .timeoutError =
      stAfterTimeouts p d (k + 1) := by
    unfold failState
    rw [hbase]
    have ht : (stAfterTimeouts p d k).timeouts = k := by
      cases k <;> rfl
    have hc : (stAfterTimeouts p d k).connectErrors = 0 := by
      cases k <;> rfl
    have htr : (stAfterTimeouts p d k).transientErrors = 0 := by
      cases k <;> rfl
    rw [hcnt _ ht hc htr]
    rfl
  have hout : timeoutEnv.outcome = .failure .timeoutError := rfl
  have ht : (stAfterTimeouts p d k).timeouts = k := by cases k <;> rfl
  have hc : (stAfterTimeouts p d k).connectErrors = 0 := by cases k <;> rfl
  have htr : (stAfterTimeouts p d k).transientErrors = 0 := by cases k <;> rfl
  show (match timeoutEnv.outcome with
    | .success => StepRes.connected (connectBase p (stAfterTimeouts p d k) timeoutEnv) 0
    | .failure e =>
        match raiseIfNeeded
            (newCounters (stAfterTimeouts p d k).timeouts
              (stAfterTimeouts p d k).connectErrors
              (stAfterTimeouts p d k).transientErrors e).1
            (newCounters (stAfterTimeouts p d k).timeouts
              (stAfterTimeouts p d k).connectErrors
              (stAfterTimeouts p d k).transientErrors e).2.1
            (newCounters (stAfterTimeouts p d k).timeouts
              (stAfterTimeouts p d k).connectErrors
              (stAfterTimeouts p d k).transientErrors e).2.2
            p.maxAttempts e with
        | none => StepRes.retry (failState p (stAfterTimeouts p d k) timeoutEnv e)
            (excBackoff e)
        | some kk => StepRes.raised kk
            (failState p (stAfterTimeouts p d k) timeoutEnv e) (excBackoff e)) = _
  rw [hout]
  simp only [hcnt _ ht hc htr]
  unfold raiseIfNeeded
  by_cases hma : k + 1 < p.maxAttempts
  · rw [if_pos (by constructor <;> [omega; decide])]
    rw [if_pos hma, hfail]
    rfl
  · rw [if_neg (by
      intro hcon
      exact hma (by omega))]
    rw [if_neg hma, hfail]
    rfl

theorem establishStep_fail (p : EstParams) (st : EstState) (env : AttemptEnv)
    (e : Exc) (hout : env.outcome = .failure e) :
    establishStep p st env =
      match raiseIfNeeded
          (newCounters st.timeouts st.connectErrors st.transientErrors e).1
          (newCounters st.timeouts st.connectErrors st.transientErrors e).2.1
          (newCounters st.timeouts st.connectErrors st.transientErrors e).2.2
          p.maxAttempts e with
      | none => .retry (failState p st env e) (excBackoff e)
      | some k => .raised k (failState p st env e) (excBackoff e) := by
  show (match env.outcome with
    | .success => StepRes.connected (connectBase p st env) 0
    | .failure e =>
        match raiseIfNeeded
            (newCounters st.timeouts st.connectErrors st.transientErrors e).1
            (newCounters st.timeouts st.connectErrors st.transientErrors e).2.1
            (newCounters st.timeouts st.connectErrors st.transientErrors e).2.2
            p.maxAttempts e with
        | none => StepRes.retry (failState p st env e) (excBackoff e)
        | some k => StepRes.raised k (failState p st env e) (excBackoff e)) = _
  rw [hout]

theorem establishStep_brokenPipe (p : EstParams) (d : BLEDevice) (k : Nat)
    (hma : 0 < p.maxAttempts) :
    establishStep p (stAfterTransients p d k) brokenPipeEnv =
      if k + 1 < MAX_TRANSIENT_ERRORS then
        .retry (stAfterTransients p d (k + 1)) 0
      else .raised .connectionFailed (stAfterTransients p d (k + 1)) 0 := by
  have ht : (stAfterTransients p d k).timeouts = 0 := by cases k <;> rfl
  have hc : (stAfterTransients p d k).connectErrors = 0 := by cases k <;> rfl
  have htr : (stAfterTransients p d k).transientErrors = k := by cases k <;> rfl
  have hcnt : newCounters (stAfterTransients p d k).timeouts
      (stAfterTransients p d k).connectErrors
      (stAfterTransients p d k).transientErrors
      (.brokenPipe "[Errno 32] Broken pipe") = (0, 0, k + 1) := by
    rw [ht, hc, htr]
    rfl
  have hbase : connectBase p (stAfterTransients p d k) brokenPipeEnv =
      { timeouts := (stAfterTransients p d k).timeouts, connectErrors := 0,
        transientErrors := k, attempt := k + 1, canUseCachedServices := true,
        createClient := false, device := d,
        client := some (mkClient p 0 d true), nextClientId := 1 } := by
    cases k with
    | zero => exact connectBase_noRefresh_init p d brokenPipeEnv rfl rfl
    | succ j =>
      exact connectBase_noRefresh p d 0 0 (j + 1) (j + 1) brokenPipeEnv rfl rfl
  have hfail : failState p (stAfterTransients p d k) brokenPipeEnv
      (.brokenPipe "[Errno 32] Broken pipe") = stAfterTransients p d (k + 1) := by
    unfold failState
    rw [hbase, hcnt]
    rfl
  have hkind : raiseKind (.brokenPipe "[Errno 32] Broken pipe") =
      .connectionFailed := by decide
  rw [establishStep_fail p _ brokenPipeEnv _ rfl]
  simp only [hcnt]
  unfold raiseIfNeeded
  by_cases hk : k + 1 < MAX_TRANSIENT_ERRORS
  · rw [if_pos ⟨by omega, hk⟩, if_pos hk, hfail]
    rfl
  · rw [if_neg (fun hcon => hk hcon.2), if_neg hk, hfail, hkind]
    rfl

theorem runEstablish_timeouts_lt (p : EstParams) (d : BLEDevice) :
    ∀ (m k : Nat), k + m < p.maxAttempts →
      runEstablish p (stAfterTimeouts p d k) (List.replicate m timeoutEnv) =
        .running (stAfterTimeouts p d (k + m)) := by
  intro m
  induction m with
  | zero => intro k _; rfl
  | succ n ih =>
    intro k h
    have h1 : k + 1 < p.maxAttempts := by omega
    rw [List.replicate_succ]
    show (match establishStep p (stAfterTimeouts p d k) timeoutEnv with
      | .connected st2 _ => RunResult.connected st2
      | .raised kk st2 _ => RunResult.raised kk st2
      | .retry st2 _ =>
          runEstablish p st2 (List.replicate n timeoutEnv)) = _
    rw [establishStep_timeout, if_pos h1]
    have h2 := ih (k + 1) (by omega)
    rw [show k + (n + 1) = k + 1 + n by omega]
    exact h2

theorem runEstablish_timeouts_raise (p : EstParams) (d : BLEDevice) :
    ∀ (m k : Nat), 1 ≤ m → k + m = p.maxAttempts →
      runEstablish p (stAfterTimeouts p d k) (List.replicate m timeoutEnv) =
        .raised .notFound (stAfterTimeouts p d p.maxAttempts) := by
  intro m
  induction m with
  | zero => intro k h0 _; exact absurd h0 (by omega)
  | succ n ih =>
    intro k _ hk
    rw [List.replicate_succ]
    show (match establishStep p (stAfterTimeouts p d k) timeoutEnv with
      | .connected st2 _ => RunResult.connected st2
      | .raised kk st2 _ => RunResult.raised kk st2
      | .retry st2 _ =>
          runEstablish p st2 (List.replicate n timeoutEnv)) = _
    rw [establishStep_timeout]
    by_cases hn : n = 0
    · subst hn
      have hne : ¬(k + 1 < p.maxAttempts) := by omega
      rw [if_neg hne]
      have he : k + 1 = p.maxAttempts := by omega
      rw [he]
    · have h1 : k + 1 < p.maxAttempts := by omega
      rw [if_pos h1]
      exact ih (k + 1) (by omega) (by omega)

theorem runEstablish_transients_lt (p : EstParams) (d : BLEDevice)
    (hma : 0 < p.maxAttempts) :
    ∀ (m k : Nat), k + m < MAX_TRANSIENT_ERRORS →
      runEstablish p (stAfterTransients p d k) (List.replicate m brokenPipeEnv) =
        .running (stAfterTransients p d (k + m)) := by
  intro m
  induction m with
  | zero => intro k _; rfl
  | succ n ih =>
    intro k h
    have h1 : k + 1 < MAX_TRANSIENT_ERRORS := by omega
    rw [List.replicate_succ]
    show (match establishStep p (stAfterTransients p d k) brokenPipeEnv with
      | .connected st2 _ => RunResult.connected st2
      | .raised kk st2 _ => RunResult.raised kk st2
      | .retry st2 _ =>
          runEstablish p st2 (List.replicate n brokenPipeEnv)) = _
    rw [establishStep_brokenPipe p d k hma, if_pos h1]
    have h2 := ih (k + 1) (by omega)
    rw [show k + (n + 1) = k + 1 + n by omega]
    exact h2

theorem runEstablish_transients_raise (p : EstParams) (d : BLEDevice)
    (hma : 0 < p.maxAttempts) :
    ∀ (m k : Nat), 1 ≤ m → k + m = MAX_TRANSIENT_ERRORS →
      runEstablish p (stAfterTransients p d k) (List.replicate m brokenPipeEnv) =
        .raised .connectionFailed (stAfterTransients p d MAX_TRANSIENT_ERRORS) := by
  intro m
  induction m with
  | zero => intro k h0 _; exact absurd h0 (by omega)
  | succ n ih =>
    intro k _ hk
    rw [List.replicate_succ]
    show (match establishStep p (stAfterTransients p d k) brokenPipeEnv with
      | .connected st2 _ => RunResult.connected st2
      | .raised kk st2 _ => RunResult.raised kk st2
      | .retry st2 _ =>
          runEstablish p st2 (List.replicate n brokenPipeEnv)) = _
    rw [establishStep_brokenPipe p d k hma]
    by_cases hn : n = 0
    · subst hn
      have hne : ¬(k + 1 < MAX_TRANSIENT_ERRORS) := by omega
      rw [if_neg hne]
      have he : k + 1 = MAX_TRANSIENT_ERRORS := by omega
      rw [he]
    · have h1 : k + 1 < MAX_TRANSIENT_ERRORS := by omega
      rw [if_pos h1]
      exact ih (k + 1) (by omega) (by omega)

/-- C1: a failed attempt retries exactly while
`timeouts + connect_errors < max_attempts` and `transient_errors < 9`
after counting; every injected all-timeout sequence of length
`n < max_attempts` keeps the loop retrying with `timeouts = n`, and the
sequence of length exactly `max_attempts` raises the NotFound kind at
precisely attempt `max_attempts`, where
`timeouts + connect_errors = max_attempts`. -/
theorem C1_timeout_budget (p : EstParams) (d : BLEDevice) (n : Nat)
    (hn : n < p.maxAttempts) :
    (∀ (st : EstState) (env : AttemptEnv) (e : Exc), env.outcome = .failure e →
      ((establishStep p st env).isRetry = true ↔
        (newCounters st.timeouts st.connectErrors st.transientErrors e).1 +
            (newCounters st.timeouts st.connectErrors st.transientErrors e).2.1 <
            p.maxAttempts ∧
          (newCounters st.timeouts st.connectErrors st.transientErrors e).2.2 <
            MAX_TRANSIENT_ERRORS)) ∧
    runEstablish p (initEstState d) (List.replicate n timeoutEnv) =
      .running (stAfterTimeouts p d n) ∧
    runEstablish p (initEstState d) (List.replicate p.maxAttempts timeoutEnv) =
      .raised .notFound (stAfterTimeouts p d p.maxAttempts) ∧
    (stAfterTimeouts p d p.maxAttempts).timeouts +
        (stAfterTimeouts p d p.maxAttempts).connectErrors = p.maxAttempts ∧
    (stAfterTimeouts p d p.maxAttempts).attempt = p.maxAttempts := by
  refine ⟨?_, ?_, ?_, ?_, ?_⟩
  · intro st env e he
    rw [establishStep_fail p st env e he]
    unfold raiseIfNeeded
    by_cases hb :
        (newCounters st.timeouts st.connectErrors st.transientErrors e).1 +
          (newCounters st.timeouts st.connectErrors st.transientErrors e).2.1 <
          p.maxAttempts ∧
        (newCounters st.timeouts st.connectErrors st.transientErrors e).2.2 <
          MAX_TRANSIENT_ERRORS
    · rw [if_pos hb]
      exact iff_of_true rfl hb
    · rw [if_neg hb]
      exact iff_of_false (by simp [StepRes.isRetry]) hb
  · have h := runEstablish_timeouts_lt p d n 0 (by omega)
    rw [Nat.zero_add] at h
    exact h
  · exact runEstablish_timeouts_raise p d p.maxAttempts 0 (by omega) (by omega)
  · cases hma : p.maxAttempts with
    | zero => rw [hma] at hn; exact absurd hn (by omega)
    | succ j => rfl
  · cases hma : p.maxAttempts with
    | zero => rw [hma] at hn; exact absurd hn (by omega)
    | succ j => rfl

/-- C1 witness: with the default budget of 4 attempts, three injected
timeouts keep the loop retrying and the fourth raises NotFound. -/
theorem C1_timeout_budget_witness :
    (3 < (4 : Nat)) ∧
    runEstablish probeParams (initEstState probeDevice)
        (List.replicate 3 timeoutEnv) =
      .running (stAfterTimeouts probeParams probeDevice 3) ∧
    runEstablish probeParams (initEstState probeDevice)
        (List.replicate 4 timeoutEnv) =
      .raised .notFound (stAfterTimeouts probeParams probeDevice 4) := by
  have h := C1_timeout_budget probeParams probeDevice 3 (by decide)
  exact ⟨by decide, h.2.1, h.2.2.1⟩

/-- C3: BrokenPipeError, EOFError, and transport/attribute errors whose
message contains a known transient bus error code
(le-connection-abort-by-local, br-connection-canceled) bump only the
transient counter; every other transport/attribute-family error bumps
only the generic connect-error counter; and a run of transient failures
keeps the loop retrying while fewer than 9 have occurred, raising on the
9th. -/
theorem C3_transient_classification (p : EstParams) (d : BLEDevice)
    (t c tr n : Nat) (m : String)
    (hma : 0 < p.maxAttempts) (hn : n < MAX_TRANSIENT_ERRORS) :
    newCounters t c tr (.brokenPipe m) = (t, c, tr + 1) ∧
    newCounters t c tr (.eofError m) = (t, c, tr + 1) ∧
    (hasTransientError m = true →
      newCounters t c tr (.bleakDBus m) = (t, c, tr + 1) ∧
      newCounters t c tr (.bleakError m) = (t, c, tr + 1) ∧
      newCounters t c tr (.attributeError m) = (t, c, tr + 1)) ∧
    (hasTransientError m = false →
      newCounters t c tr (.bleakDBus m) = (t, c + 1, tr) ∧
      newCounters t c tr (.bleakError m) = (t, c + 1, tr) ∧
      newCounters t c tr (.attributeError m) = (t, c + 1, tr)) ∧
    (∀ s : String, hasTransientError s =
      (strContains s "le-connection-abort-by-local" ||
        strContains s "br-connection-canceled")) ∧
    runEstablish p (initEstState d) (List.replicate n brokenPipeEnv) =
      .running (stAfterTransients p d n) ∧
    runEstablish p (initEstState d)
        (List.replicate MAX_TRANSIENT_ERRORS brokenPipeEnv) =
      .raised .connectionFailed (stAfterTransients p d MAX_TRANSIENT_ERRORS) ∧
    (stAfterTransients p d MAX_TRANSIENT_ERRORS).transientErrors =
      MAX_TRANSIENT_ERRORS := by
  refine ⟨rfl, rfl, ?_, ?_, ?_, ?_, ?_, rfl⟩
  · intro h
    refine ⟨?_, ?_, ?_⟩ <;> simp [newCounters, h]
  · intro h
    refine ⟨?_, ?_, ?_⟩ <;> simp [newCounters, h]
  · intro s
    unfold hasTransientError TRANSIENT_ERRORS
    simp [List.any_cons, List.any_nil]
  · have h := runEstablish_transients_lt p d hma n 0 (by omega)
    rw [Nat.zero_add] at h
    exact h
  · exact runEstablish_transients_raise p d hma MAX_TRANSIENT_ERRORS 0
      (by decide) (by decide)

/-- C3 witness: a broken pipe bumps only the transient counter; a DBus
error whose message contains le-connection-abort-by-local does too; 8
such failures keep the loop retrying and the 9th raises. -/
theorem C3_transient_classification_witness :
    newCounters 0 0 0 (.brokenPipe "[Errno 32] Broken pipe") = (0, 0, 1) ∧
    newCounters 0 0 0
        (.bleakDBus "[org.bluez.Error] le-connection-abort-by-local") =
      (0, 0, 1) ∧
    (runEstablish probeParams (initEstState probeDevice)
        (List.replicate 8 brokenPipeEnv)).keptRunning = true ∧
    (runEstablish probeParams (initEstState probeDevice)
        (List.replicate 9 brokenPipeEnv)).raisedKind =
      some .connectionFailed := by
  have h := C3_transient_classification probeParams probeDevice
    0 0 0 8 "[org.bluez.Error] le-connection-abort-by-local"
    (by decide) (by decide)
  refine ⟨h.1, (h.2.2.1 (by decide)).1, ?_, ?_⟩
  · rw [h.2.2.2.2.2.1]
    rfl
  · show (runEstablish probeParams (initEstState probeDevice)
      (List.replicate MAX_TRANSIENT_ERRORS brokenPipeEnv)).raisedKind =
        some TerminalKind.connectionFailed
    rw [h.2.2.2.2.2.2.1]
    rfl

/-- C4 witness: with address and path unchanged the client object is
kept; when the callback returns a device on another path a new client is
built; on the first iteration a client is always built. -/
theorem C4_client_reuse_witness :
    (establishStep probeParams c4State timeoutEnv).state.client =
      some (mkClient probeParams 0 c4DevA true) ∧
    (establishStep probeParams c4State c4EnvChanged).state.client =
      some (mkClient probeParams 1 c4DevB true) ∧
    (establishStep probeParams (initEstState c4DevA) timeoutEnv).state.client =
      some (mkClient probeParams 0 c4DevA true) := by
  refine ⟨?_, ?_, ?_⟩
  · exact ((C4_client_reuse probeParams c4State timeoutEnv).2.1 rfl (by decide)).1
  · exact ((C4_client_reuse probeParams c4State c4EnvChanged).2.2.1 rfl
      (by decide)).1
  · exact ((C4_client_reuse probeParams (initEstState c4DevA) timeoutEnv).1
      rfl).1

end BleakRetryConnector
